import Mathlib

/-!
Shallow embedding of `src/binance_mcp.py`: the request-signing and
guardrail-enforcement pipeline of the Binance MCP gateway.

Conventions of the embedding:
* Python floats (prices, quantities, thresholds) are modelled as `ℚ`.
* Python dicts used as parameter mappings are `List (String × String)` in
  insertion order; values are pre-stringified, matching what `urlencode`
  does to ints via `str`.  Assignment `d[k] = v` is `dictSet` (update in
  place when the key exists, append otherwise), as in CPython dicts.
* Module-level configuration globals become fields of `GatewayConfig`;
  the mutable global `time_offset_ms` and the network's behaviour during
  one request become fields of `NetEnv`.
* `raise HTTPException(status, detail)` becomes `Except.error` of an
  `HTTPExc`; the format strings of the Python messages are carried as a
  structured `ErrDetail` holding exactly the data interpolated there.
* Outbound effects are recorded in a `List GatewayEvent` trace:
  a `signedEv` when a signature is computed, a `dispatched` when a
  request actually leaves for the venue.
-/

/-- Structured payload of the `HTTPException` messages raised by the
source: each constructor carries the values the corresponding Python
format string interpolates. -/
inductive ErrDetail where
  /-- `Notional n exceeds MAX_NOTIONAL_PER_ORDER=m` (line 179). -/
  | notionalExceeded (notional maxNotional : ℚ)
  /-- `Quantity q exceeds MAX_QTY_PER_ORDER=m` (line 181). -/
  | qtyExceeded (qty maxQty : ℚ)
  /-- `Price deviation d% > limit l% (last=p)` (line 198). -/
  | deviationExceeded (deviationPct limitPct last : ℚ)
  /-- `Provide orderId or clientOrderId` (line 280). -/
  | missingCancelId
  /-- `BINANCE_API_KEY/BINANCE_API_SECRET not set` (line 148). -/
  | credsNotSet
  /-- `Unsupported method m` (line 165). -/
  | unsupportedMethod (m : String)
  /-- `Unauthorized` (line 49). -/
  | unauthorized
  /-- venue error body propagated by `_signed_request` (lines 168-173). -/
  | remote (body : String)
  deriving DecidableEq, Repr

/-- `fastapi.HTTPException(status_code, detail)`. -/
structure HTTPExc where
  status : Nat
  detail : ErrDetail
  deriving DecidableEq, Repr

/-- The LimitExceeded family of the spec: a 400 whose detail is one of the
three guardrail messages. -/
def isLimitExceededDetail : ErrDetail → Bool
  | .notionalExceeded _ _ => true
  | .qtyExceeded _ _ => true
  | .deviationExceeded _ _ _ => true
  | _ => false

/-- An error is a LimitExceeded in the spec's taxonomy iff it is a 400
carrying one of the three guardrail details. -/
def IsLimitExceeded (e : HTTPExc) : Prop :=
  e.status = 400 ∧ isLimitExceededDetail e.detail = true

instance (e : HTTPExc) : Decidable (IsLimitExceeded e) := by
  unfold IsLimitExceeded; infer_instance

/-- The module-level configuration globals of `binance_mcp.py`
(lines 23-32). -/
structure GatewayConfig where
  BINANCE_API_KEY : String
  BINANCE_API_SECRET : String
  AGENT_KEY : String
  RECV_WINDOW_MS : Int
  MAX_NOTIONAL_PER_ORDER : ℚ
  MAX_QTY_PER_ORDER : ℚ
  MAX_PRICE_DEVIATION_PCT : ℚ
  deriving Repr

/-- `time_offset_ms = 0` (line 42): the offset before the first
successful sync. -/
def time_offset_ms_init : Int := 0

/-- The world outside one request: the current value of the mutable
global `time_offset_ms`, the local clock, the outcome of the last-price
fetch, and the venue's reply to a dispatched call. -/
structure NetEnv where
  /-- `int(time.time() * 1000)` at this request. -/
  local_ms : Int
  /-- current value of the global `time_offset_ms`. -/
  time_offset_ms : Int
  /-- result of `_get_last_price` (`none` on any fetch/parse failure). -/
  last_price : Option ℚ
  /-- what the venue answers when a signed request is actually sent:
  parsed body on 2xx, an `HTTPExc` on non-2xx. -/
  venue : Except HTTPExc String

/-- Outbound actions of one request, in order. -/
inductive GatewayEvent where
  /-- a signature was computed over the given canonical query string. -/
  | signedEv (query sig : String)
  /-- a request left for the venue. -/
  | dispatched (method path : String) (ps : List (String × String))
  deriving DecidableEq, Repr

/-- The parameter lists of the `dispatched` events of a trace. -/
def dispatchedParamsOf (evs : List GatewayEvent) : List (List (String × String)) :=
  evs.filterMap fun e =>
    match e with
    | .dispatched _ _ ps => some ps
    | _ => none

/-- CPython dict assignment `d[k] = v` on an insertion-ordered mapping:
replace in place when the key exists, append otherwise. -/
def dictSet (d : List (String × String)) (k v : String) : List (String × String) :=
  if (d.map Prod.fst).contains k then
    d.map fun kv => if kv.1 = k then (k, v) else kv
  else
    d ++ [(k, v)]

/-- `_enforce_limits(symbol, side, price, qty)` (lines 176-181). -/
def _enforce_limits (cfg : GatewayConfig) (_symbol _side : String)
    (price qty : ℚ) : Except HTTPExc Unit :=
  let notional := price * qty
  if cfg.MAX_NOTIONAL_PER_ORDER > 0 ∧ notional > cfg.MAX_NOTIONAL_PER_ORDER then
    .error ⟨400, .notionalExceeded notional cfg.MAX_NOTIONAL_PER_ORDER⟩
  else if cfg.MAX_QTY_PER_ORDER > 0 ∧ qty > cfg.MAX_QTY_PER_ORDER then
    .error ⟨400, .qtyExceeded qty cfg.MAX_QTY_PER_ORDER⟩
  else
    .ok ()

/-- `_get_last_price(symbol)` (lines 183-188): the whole fallible
fetch-and-parse is the environment's `last_price`; any exception yields
`none`. -/
def _get_last_price (env : NetEnv) (_symbol : String) : Option ℚ :=
  env.last_price

/-- `_enforce_price_deviation(symbol, user_price)` (lines 190-198). -/
def _enforce_price_deviation (cfg : GatewayConfig) (env : NetEnv)
    (symbol : String) (user_price : ℚ) : Except HTTPExc Unit :=
  if cfg.MAX_PRICE_DEVIATION_PCT ≤ 0 then
    .ok ()
  else
    match _get_last_price env symbol with
    | none => .ok ()
    | some last =>
      let deviation := |user_price - last| / last * 100
      if deviation > cfg.MAX_PRICE_DEVIATION_PCT then
        .error ⟨400, .deviationExceeded deviation cfg.MAX_PRICE_DEVIATION_PCT last⟩
      else
        .ok ()

/-! ### Byte-level encoding: UTF-8, `urllib.parse.quote_plus`, `urlencode` -/

/-- UTF-8 encoding of one character, as byte values. -/
def utf8Bytes (c : Char) : List Nat :=
  let n := c.toNat
  if n < 0x80 then [n]
  else if n < 0x800 then
    [0xC0 ||| (n >>> 6), 0x80 ||| (n &&& 0x3F)]
  else if n < 0x10000 then
    [0xE0 ||| (n >>> 12), 0x80 ||| ((n >>> 6) &&& 0x3F), 0x80 ||| (n &&& 0x3F)]
  else
    [0xF0 ||| (n >>> 18), 0x80 ||| ((n >>> 12) &&& 0x3F),
     0x80 ||| ((n >>> 6) &&& 0x3F), 0x80 ||| (n &&& 0x3F)]

/-- `s.encode("utf-8")` as a list of byte values. -/
def strBytes (s : String) : List Nat :=
  (s.data.map utf8Bytes).join

/-- Lowercase hex digit, as used by `hexdigest()`. -/
def hexCharLower (n : Nat) : Char :=
  if n < 10 then Char.ofNat (48 + n) else Char.ofNat (87 + n)

/-- Uppercase hex digit, as used by percent-encoding. -/
def hexCharUpper (n : Nat) : Char :=
  if n < 10 then Char.ofNat (48 + n) else Char.ofNat (55 + n)

/-- The bytes `urllib.parse` never quotes: ASCII alphanumerics and
`_ . - ~`. -/
def is_url_safe (b : Nat) : Bool :=
  (48 ≤ b && b ≤ 57) || (65 ≤ b && b ≤ 90) || (97 ≤ b && b ≤ 122) ||
    b == 95 || b == 46 || b == 45 || b == 126

/-- `quote_plus` on a single byte: space becomes `+`, safe bytes pass
through, the rest percent-encode with uppercase hex. -/
def quoteByte (b : Nat) : String :=
  if b == 32 then "+"
  else if is_url_safe b then String.mk [Char.ofNat b]
  else String.mk [Char.ofNat 37, hexCharUpper (b / 16), hexCharUpper (b % 16)]

/-- `urllib.parse.quote_plus(s)` (the default `quote_via` of
`urlencode`). -/
def quote_plus (s : String) : String :=
  String.join ((strBytes s).map quoteByte)

/-- `urllib.parse.urlencode(params, doseq=True)` on a string-valued
insertion-ordered mapping (ints are pre-stringified, which is what
`urlencode` does via `str`; no value is a sequence here, so `doseq`
changes nothing). -/
def urlencode (params : List (String × String)) : String :=
  String.intercalate "&" (params.map fun kv => quote_plus kv.1 ++ "=" ++ quote_plus kv.2)

/-! ### SHA-256 and HMAC-SHA256 (`hashlib.sha256`, `hmac.new(...).hexdigest()`)

Machine words are `Nat` reduced mod `2^32`. -/

/-- Truncated 32-bit rotate right. -/
def rotr32 (n x : Nat) : Nat :=
  ((x >>> n) ||| (x <<< (32 - n))) % 2 ^ 32

/-- 32-bit addition. -/
def add32 (a b : Nat) : Nat := (a + b) % 2 ^ 32

/-- SHA-256 `Ch`. -/
def shaCh (x y z : Nat) : Nat := (x &&& y) ^^^ ((x ^^^ 0xFFFFFFFF) &&& z)

/-- SHA-256 `Maj`. -/
def shaMaj (x y z : Nat) : Nat := (x &&& y) ^^^ (x &&& z) ^^^ (y &&& z)

/-- SHA-256 `Σ₀`. -/
def bsig0 (x : Nat) : Nat := rotr32 2 x ^^^ rotr32 13 x ^^^ rotr32 22 x

/-- SHA-256 `Σ₁`. -/
def bsig1 (x : Nat) : Nat := rotr32 6 x ^^^ rotr32 11 x ^^^ rotr32 25 x

/-- SHA-256 `σ₀`. -/
def ssig0 (x : Nat) : Nat := rotr32 7 x ^^^ rotr32 18 x ^^^ (x >>> 3)

/-- SHA-256 `σ₁`. -/
def ssig1 (x : Nat) : Nat := rotr32 17 x ^^^ rotr32 19 x ^^^ (x >>> 10)

/-- The 64 SHA-256 round constants. -/
def K256 : List Nat :=
  [1116352408, 1899447441, 3049323471, 3921009573, 961987163,
   1508970993, 2453635748, 2870763221, 3624381080, 310598401,
   607225278, 1426881987, 1925078388, 2162078206, 2614888103,
   3248222580, 3835390401, 4022224774, 264347078, 604807628,
   770255983, 1249150122, 1555081692, 1996064986, 2554220882,
   2821834349, 2952996808, 3210313671, 3336571891, 3584528711,
   113926993, 338241895, 666307205, 773529912, 1294757372,
   1396182291, 1695183700, 1986661051, 2177026350, 2456956037,
   2730485921, 2820302411, 3259730800, 3345764771, 3516065817,
   3600352804, 4094571909, 275423344, 430227734, 506948616,
   659060556, 883997877, 958139571, 1322822218, 1537002063,
   1747873779, 1955562222, 2024104815, 2227730452, 2361852424,
   2428436474, 2756734187, 3204031479, 3329325298]

/-- The initial SHA-256 hash value. -/
def H256init : List Nat :=
  [1779033703, 3144134277, 1013904242, 2773480762,
   1359893119, 2600822924, 528734635, 1541459225]

/-- A `Nat` as 8 big-endian bytes. -/
def be64Bytes (n : Nat) : List Nat :=
  [(n >>> 56) % 256, (n >>> 48) % 256, (n >>> 40) % 256, (n >>> 32) % 256,
   (n >>> 24) % 256, (n >>> 16) % 256, (n >>> 8) % 256, n % 256]

/-- A 32-bit word as 4 big-endian bytes. -/
def wordBytes (w : Nat) : List Nat :=
  [(w >>> 24) % 256, (w >>> 16) % 256, (w >>> 8) % 256, w % 256]

/-- SHA-256 padding: `0x80`, zeros to 56 mod 64, then the bit length as
8 big-endian bytes. -/
def shaPad (msg : List Nat) : List Nat :=
  let L := msg.length
  msg ++ [0x80] ++ List.replicate ((119 - L % 64) % 64) 0 ++ be64Bytes (8 * L)

/-- Big-endian 4-byte groups to 32-bit words. -/
def bytesToWords : List Nat → List Nat
  | a :: b :: c :: d :: rest => (((a * 256 + b) * 256 + c) * 256 + d) :: bytesToWords rest
  | _ => []

/-- Split a word list into 16-word blocks (padding makes the input an
exact multiple of 16; a short tail would be dropped). -/
def toBlocks16 : List Nat → List (List Nat)
  | w0 :: w1 :: w2 :: w3 :: w4 :: w5 :: w6 :: w7 ::
    w8 :: w9 :: w10 :: w11 :: w12 :: w13 :: w14 :: w15 :: rest =>
      [w0, w1, w2, w3, w4, w5, w6, w7, w8, w9, w10, w11, w12, w13, w14, w15] ::
        toBlocks16 rest
  | _ => []

/-- The SHA-256 message schedule: 16 block words extended to 64. -/
def shaSchedule (block : List Nat) : List Nat :=
  (List.range 48).foldl
    (fun w _ =>
      let t := w.length
      w ++ [add32 (add32 (ssig1 (w.getD (t - 2) 0)) (w.getD (t - 7) 0))
                  (add32 (ssig0 (w.getD (t - 15) 0)) (w.getD (t - 16) 0))])
    block

/-- One SHA-256 round on the 8-word working state. -/
def shaRound (s : List Nat) (k w : Nat) : List Nat :=
  let a := s.getD 0 0
  let b := s.getD 1 0
  let c := s.getD 2 0
  let d := s.getD 3 0
  let e := s.getD 4 0
  let f := s.getD 5 0
  let g := s.getD 6 0
  let h := s.getD 7 0
  let T1 := add32 h (add32 (bsig1 e) (add32 (shaCh e f g) (add32 k w)))
  let T2 := add32 (bsig0 a) (shaMaj a b c)
  [add32 T1 T2, a, b, c, add32 d T1, e, f, g]

/-- SHA-256 compression of one 16-word block into the hash value. -/
def shaCompress (hv block : List Nat) : List Nat :=
  let w := shaSchedule block
  let s := (K256.zip w).foldl (fun s kw => shaRound s kw.1 kw.2) hv
  List.zipWith add32 hv s

/-- `hashlib.sha256(msg).digest()` over byte values. -/
def sha256Bytes (msg : List Nat) : List Nat :=
  let blocks := toBlocks16 (bytesToWords (shaPad msg))
  ((blocks.foldl shaCompress H256init).map wordBytes).join

/-- A byte as two lowercase hex characters. -/
def byteHex (b : Nat) : String :=
  String.mk [hexCharLower (b / 16), hexCharLower (b % 16)]

/-- `.hexdigest()` of a digest. -/
def hexdigest (bs : List Nat) : String :=
  String.join (bs.map byteHex)

/-- RFC 2104 HMAC-SHA256 over byte values (block size 64). -/
def hmacSha256 (key msg : List Nat) : List Nat :=
  let k0 := if key.length > 64 then sha256Bytes key else key
  let k1 := k0 ++ List.replicate (64 - k0.length) 0
  let ipad := k1.map fun b => b ^^^ 0x36
  let opad := k1.map fun b => b ^^^ 0x5c
  sha256Bytes (opad ++ sha256Bytes (ipad ++ msg))

/-- `hmac.new(secret.encode(), msg.encode(), hashlib.sha256).hexdigest()`. -/
def hmacSha256Hex (secret msg : String) : String :=
  hexdigest (hmacSha256 (strBytes secret) (strBytes msg))

/-- `_sign(params)` (lines 111-114): hex HMAC-SHA256, keyed by the API
secret, of the url-encoded parameters. -/
def _sign (cfg : GatewayConfig) (params : List (String × String)) : String :=
  let query := urlencode params
  hmacSha256Hex cfg.BINANCE_API_SECRET query

/-- `str.upper()` as used on ticker symbols, restricted to ASCII (the
venue's symbols are ASCII; written out so the kernel can evaluate it). -/
def py_upper (s : String) : String :=
  String.mk (s.data.map fun c =>
    if 97 ≤ c.toNat ∧ c.toNat ≤ 122 then Char.ofNat (c.toNat - 32) else c)

/-! ### Clock synchronizer and signed transport -/

/-- `_timestamp_ms()` (lines 116-117): local milliseconds plus the
current offset. -/
def _timestamp_ms (env : NetEnv) : Int :=
  env.local_ms + env.time_offset_ms

/-- `_sync_time()` (lines 119-129): the new value of the global
`time_offset_ms`.  `fetch` is the fallible fetch-and-parse of
`serverTime` (`none` on any network or parse failure, in which case the
old offset is kept and the exception is swallowed). -/
def _sync_time (fetch : Option Int) (local_ms old_offset : Int) : Int :=
  match fetch with
  | some server_time => server_time - local_ms
  | none => old_offset

/-- `require_agent_key(x_agent_key)` (lines 47-50); the header is `none`
when absent. -/
def require_agent_key (cfg : GatewayConfig) (x_agent_key : Option String) :
    Except HTTPExc Bool :=
  if cfg.AGENT_KEY = "" ∨ x_agent_key ≠ some cfg.AGENT_KEY then
    .error ⟨401, .unauthorized⟩
  else
    .ok true

/-- `_signed_request(method, path, params)` (lines 146-173), with the
outbound actions recorded as events.  The credential check precedes
everything; then `timestamp` and `recvWindow` are set, the signature is
computed over the parameters as they stand (so not over `signature`
itself) and appended; dispatch happens only for the three supported
methods, and the venue's reply (or non-2xx error) is passed through. -/
def _signed_request (cfg : GatewayConfig) (env : NetEnv)
    (method path : String) (params : List (String × String)) :
    Except HTTPExc String × List GatewayEvent :=
  if cfg.BINANCE_API_KEY = "" ∨ cfg.BINANCE_API_SECRET = "" then
    (.error ⟨500, .credsNotSet⟩, [])
  else
    let p1 := dictSet params "timestamp" (toString (_timestamp_ms env))
    let p2 := dictSet p1 "recvWindow" (toString cfg.RECV_WINDOW_MS)
    let sig := _sign cfg p2
    let p3 := dictSet p2 "signature" sig
    if method = "GET" ∨ method = "POST" ∨ method = "DELETE" then
      match env.venue with
      | .ok body => (.ok body, [.signedEv (urlencode p2) sig, .dispatched method path p3])
      | .error e => (.error e, [.signedEv (urlencode p2) sig, .dispatched method path p3])
    else
      (.error ⟨500, .unsupportedMethod method⟩, [.signedEv (urlencode p2) sig])

/-! ### Order models (lines 55-106) -/

/-- `LimitOrderIn` (lines 55-66); schema validation (side/tif regex,
positivity) is the intake layer's precondition and not re-modelled. -/
structure LimitOrderIn where
  symbol : String
  side : String
  price : ℚ
  qty : ℚ
  tif : String
  client_id : Option String

/-- `OCOOrderIn` (lines 68-96); the OCO price-relation validator runs in
the intake layer. -/
structure OCOOrderIn where
  symbol : String
  side : String
  quantity : ℚ
  price : ℚ
  stop : ℚ
  stop_limit : ℚ
  tif : String
  client_id : Option String

/-- `CancelOrderIn` (lines 98-106): `orderId` is an optional int,
`clientOrderId` an optional string. -/
structure CancelOrderIn where
  symbol : String
  orderId : Option Int
  clientOrderId : Option String

/-- Python truthiness of `Optional[int]`: `None` and `0` are falsy. -/
def truthyOptInt : Option Int → Bool
  | none => false
  | some n => n ≠ 0

/-- Python truthiness of `Optional[str]`: `None` and `""` are falsy. -/
def truthyOptStr : Option String → Bool
  | none => false
  | some s => s ≠ ""

/-! ### Route handlers (lines 238-287) -/

/-- `place_limit(order)` (lines 238-254): guardrails, then parameter
building, then the signed POST; the successful body is wrapped as
`ok/binance`. -/
def place_limit (cfg : GatewayConfig) (env : NetEnv) (order : LimitOrderIn) :
    Except HTTPExc String × List GatewayEvent :=
  match _enforce_limits cfg order.symbol order.side order.price order.qty with
  | .error e => (.error e, [])
  | .ok () =>
    match _enforce_price_deviation cfg env order.symbol order.price with
    | .error e => (.error e, [])
    | .ok () =>
      let params0 :=
        [("symbol", py_upper order.symbol),
         ("side", order.side),
         ("type", "LIMIT"),
         ("timeInForce", order.tif),
         ("quantity", toString order.qty),
         ("price", toString order.price),
         ("newOrderRespType", "RESULT")]
      let params :=
        match order.client_id with
        | some cid => if cid ≠ "" then dictSet params0 "newClientOrderId" cid else params0
        | none => params0
      _signed_request cfg env "POST" "/api/v3/order" params

/-- `place_oco(oco)` (lines 258-275): same shape as `place_limit`, with
the OCO parameter set and the guardrails run on `price`/`quantity`. -/
def place_oco (cfg : GatewayConfig) (env : NetEnv) (oco : OCOOrderIn) :
    Except HTTPExc String × List GatewayEvent :=
  match _enforce_limits cfg oco.symbol oco.side oco.price oco.quantity with
  | .error e => (.error e, [])
  | .ok () =>
    match _enforce_price_deviation cfg env oco.symbol oco.price with
    | .error e => (.error e, [])
    | .ok () =>
      let params0 :=
        [("symbol", py_upper oco.symbol),
         ("side", oco.side),
         ("quantity", toString oco.quantity),
         ("price", toString oco.price),
         ("stopPrice", toString oco.stop),
         ("stopLimitPrice", toString oco.stop_limit),
         ("stopLimitTimeInForce", oco.tif),
         ("newOrderRespType", "RESULT")]
      let params :=
        match oco.client_id with
        | some cid => if cid ≠ "" then dictSet params0 "listClientOrderId" cid else params0
        | none => params0
      _signed_request cfg env "POST" "/api/v3/order/oco" params

/-- `cancel_order(body)` (lines 277-287): reject when both identifiers
are falsy; otherwise forward every truthy identifier and dispatch the
signed DELETE. -/
def cancel_order (cfg : GatewayConfig) (env : NetEnv) (body : CancelOrderIn) :
    Except HTTPExc String × List GatewayEvent :=
  if ¬ truthyOptInt body.orderId ∧ ¬ truthyOptStr body.clientOrderId then
    (.error ⟨400, .missingCancelId⟩, [])
  else
    let params0 := [("symbol", py_upper body.symbol)]
    let params1 :=
      if truthyOptInt body.orderId then
        dictSet params0 "orderId" (toString (body.orderId.getD 0))
      else params0
    let params2 :=
      if truthyOptStr body.clientOrderId then
        dictSet params1 "origClientOrderId" (body.clientOrderId.getD "")
      else params1
    _signed_request cfg env "DELETE" "/api/v3/order" params2

/-! ### Sample configurations and environments for concrete witnesses -/

/-- A configuration with credentials set, `max_notional = 10`, the other
guardrails disabled. -/
def cfgNotional10 : GatewayConfig :=
  ⟨"api-key", "api-secret", "agent-secret", 5000, 10, 0, 0⟩

/-- A configuration with credentials set and every guardrail disabled. -/
def cfgNoLimits : GatewayConfig :=
  ⟨"api-key", "api-secret", "agent-secret", 5000, 0, 0, 0⟩

/-- A configuration with only the deviation guardrail enabled (5%). -/
def cfgDev5 : GatewayConfig :=
  ⟨"api-key", "api-secret", "agent-secret", 5000, 0, 0, 5⟩

/-- A configuration with no credentials configured. -/
def cfgNoCreds : GatewayConfig :=
  ⟨"", "", "agent-secret", 5000, 0, 0, 0⟩

/-- An environment where every network interaction succeeds. -/
def envHappy : NetEnv :=
  ⟨1700000000000, 250, some 100, .ok "venue-body"⟩

/-- An environment where the price feed is down. -/
def envFeedDown : NetEnv :=
  ⟨1700000000000, 250, none, .ok "venue-body"⟩

/-- The C9 witness cancel request as actually dispatched (client id
only; computed from the embedding). -/
def cancelDispatchA : List (String × String) :=
  [("symbol", "BTCUSDT"), ("origClientOrderId", "abc"),
   ("timestamp", "1700000000250"), ("recvWindow", "5000"),
   ("signature", "3ead58beadc1c1661ac2d4448145a31d394aef2dc3d12c25aacd8126b9ce6255")]

/-- The cancel request dispatched when both identifiers are supplied
(computed from the embedding): both are forwarded. -/
def cancelDispatchB : List (String × String) :=
  [("symbol", "BTCUSDT"), ("orderId", "5"), ("origClientOrderId", "abc"),
   ("timestamp", "1700000000250"), ("recvWindow", "5000"),
   ("signature", "caf60e48abf32c573f0d95866239a511f31171b108ebe9274b24f635c1d9e3b0")]


/-! ### Validation of the hash model against published test vectors -/

set_option maxRecDepth 100000 in
/-- FIPS 180-2 test vector: SHA-256 of `"abc"`. -/
theorem sha256_fips_vector :
    hexdigest (sha256Bytes (strBytes "abc")) =
      "ba7816bf8f01cfea414140de5dae2223b00361a396177a9cb410ff61f20015ad" := by
  decide

set_option maxRecDepth 100000 in
/-- RFC 4231 test case 2: HMAC-SHA256 with key `"Jefe"`. -/
theorem hmac_sha256_rfc4231_vector :
    hmacSha256Hex "Jefe" "what do ya want for nothing?" =
      "5bdcc146bf60754e6a042426089575c75a003f089d2739839dec58b964ec3843" := by
  decide

/-! ### C1 — notional and quantity guardrail -/

/-- `_enforce_limits` passes exactly when neither cap condition fires. -/
theorem enforce_limits_ok_iff (cfg : GatewayConfig) (s sd : String) (p q : ℚ) :
    _enforce_limits cfg s sd p q = .ok () ↔
      ¬(cfg.MAX_NOTIONAL_PER_ORDER > 0 ∧ p * q > cfg.MAX_NOTIONAL_PER_ORDER) ∧
      ¬(cfg.MAX_QTY_PER_ORDER > 0 ∧ q > cfg.MAX_QTY_PER_ORDER) := by
  by_cases h1 : cfg.MAX_NOTIONAL_PER_ORDER > 0 ∧ p * q > cfg.MAX_NOTIONAL_PER_ORDER <;>
    by_cases h2 : cfg.MAX_QTY_PER_ORDER > 0 ∧ q > cfg.MAX_QTY_PER_ORDER <;>
    simp [_enforce_limits, h1, h2]

/-- When either cap condition fires, `_enforce_limits` raises a
LimitExceeded. -/
theorem enforce_limits_error_of (cfg : GatewayConfig) (s sd : String) (p q : ℚ)
    (h : (cfg.MAX_NOTIONAL_PER_ORDER > 0 ∧ p * q > cfg.MAX_NOTIONAL_PER_ORDER) ∨
         (cfg.MAX_QTY_PER_ORDER > 0 ∧ q > cfg.MAX_QTY_PER_ORDER)) :
    ∃ e, _enforce_limits cfg s sd p q = .error e ∧ IsLimitExceeded e := by
  by_cases h1 : cfg.MAX_NOTIONAL_PER_ORDER > 0 ∧ p * q > cfg.MAX_NOTIONAL_PER_ORDER
  · exact ⟨⟨400, .notionalExceeded (p * q) cfg.MAX_NOTIONAL_PER_ORDER⟩,
      by simp [_enforce_limits, h1], rfl, rfl⟩
  · have h2 := h.resolve_left h1
    exact ⟨⟨400, .qtyExceeded q cfg.MAX_QTY_PER_ORDER⟩,
      by simp [_enforce_limits, h1, h2], rfl, rfl⟩

/-- C1: for every symbol, side, price and qty, `_enforce_limits` passes
iff neither `max_notional > 0 ∧ price*qty > max_notional` nor
`max_quantity > 0 ∧ qty > max_quantity` holds; when one of them holds it
fails with a LimitExceeded; equality with either cap passes (strict
inequality triggers failure); and both caps 0 always passes. -/
theorem C1_check_limits (cfg : GatewayConfig) (symbol side : String) (price qty : ℚ) :
    (_enforce_limits cfg symbol side price qty = .ok () ↔
      ¬(cfg.MAX_NOTIONAL_PER_ORDER > 0 ∧ price * qty > cfg.MAX_NOTIONAL_PER_ORDER) ∧
      ¬(cfg.MAX_QTY_PER_ORDER > 0 ∧ qty > cfg.MAX_QTY_PER_ORDER)) ∧
    ((cfg.MAX_NOTIONAL_PER_ORDER > 0 ∧ price * qty > cfg.MAX_NOTIONAL_PER_ORDER) ∨
     (cfg.MAX_QTY_PER_ORDER > 0 ∧ qty > cfg.MAX_QTY_PER_ORDER) →
      ∃ e, _enforce_limits cfg symbol side price qty = .error e ∧ IsLimitExceeded e) ∧
    (price * qty = cfg.MAX_NOTIONAL_PER_ORDER ∧ qty = cfg.MAX_QTY_PER_ORDER →
      _enforce_limits cfg symbol side price qty = .ok ()) ∧
    (cfg.MAX_NOTIONAL_PER_ORDER = 0 ∧ cfg.MAX_QTY_PER_ORDER = 0 →
      _enforce_limits cfg symbol side price qty = .ok ()) := by
  refine ⟨enforce_limits_ok_iff cfg symbol side price qty,
          enforce_limits_error_of cfg symbol side price qty, ?_, ?_⟩
  · rintro ⟨hn, hq⟩
    rw [enforce_limits_ok_iff]
    refine ⟨fun h => ?_, fun h => ?_⟩
    · rw [← hn] at h
      exact lt_irrefl _ h.2
    · rw [← hq] at h
      exact lt_irrefl _ h.2
  · rintro ⟨hn0, hq0⟩
    rw [enforce_limits_ok_iff, hn0, hq0]
    simp

/-- C1 witness: with `max_notional = 10`, the order `price = 3, qty = 4`
(notional 12) is rejected with a LimitExceeded. -/
theorem C1_check_limits_witness :
    ∃ e, _enforce_limits cfgNotional10 "BTCUSDT" "BUY" 3 4 = .error e ∧ IsLimitExceeded e :=
  (C1_check_limits cfgNotional10 "BTCUSDT" "BUY" 3 4).2.1
    (Or.inl ⟨by norm_num [cfgNotional10], by norm_num [cfgNotional10]⟩)

/-! ### C3 — price-deviation guardrail, fail-open on feed outage -/

/-- C3: `_enforce_price_deviation` is a no-op when the configured
percentage is ≤ 0; it passes when the last-price fetch failed
(fail-open, so a price-feed outage alone never blocks placement); and
with the check enabled and a positive last price it raises a
LimitExceeded exactly when `|user_price - last| / last * 100` exceeds
the configured percentage. -/
theorem C3_check_price_deviation (cfg : GatewayConfig) (env : NetEnv)
    (symbol : String) (user_price : ℚ) :
    (cfg.MAX_PRICE_DEVIATION_PCT ≤ 0 →
      _enforce_price_deviation cfg env symbol user_price = .ok ()) ∧
    (env.last_price = none →
      _enforce_price_deviation cfg env symbol user_price = .ok ()) ∧
    (∀ last : ℚ, env.last_price = some last → 0 < last →
      0 < cfg.MAX_PRICE_DEVIATION_PCT →
      ((∃ e, _enforce_price_deviation cfg env symbol user_price = .error e ∧
          IsLimitExceeded e) ↔
        |user_price - last| / last * 100 > cfg.MAX_PRICE_DEVIATION_PCT)) := by
  refine ⟨?_, ?_, ?_⟩
  · intro h
    simp [_enforce_price_deviation, h]
  · intro h
    by_cases hpct : cfg.MAX_PRICE_DEVIATION_PCT ≤ 0 <;>
      simp [_enforce_price_deviation, _get_last_price, h, hpct]
  · intro last hlast _hpos hpct
    have hnle : ¬ cfg.MAX_PRICE_DEVIATION_PCT ≤ 0 := not_le.mpr hpct
    by_cases hdev : |user_price - last| / last * 100 > cfg.MAX_PRICE_DEVIATION_PCT
    · simp only [_enforce_price_deviation, _get_last_price, hlast, if_neg hnle, if_pos hdev]
      exact iff_of_true ⟨_, rfl, rfl, rfl⟩ hdev
    · simp only [_enforce_price_deviation, _get_last_price, hlast, if_neg hnle, if_neg hdev]
      simp [hdev]

/-- C3 witness: with a 5% cap and last price 100, a user price of 110
(10% away) is rejected, while a feed outage passes. -/
theorem C3_check_price_deviation_witness :
    (∃ e, _enforce_price_deviation cfgDev5 envHappy "BTCUSDT" 110 = .error e ∧
       IsLimitExceeded e) ∧
    _enforce_price_deviation cfgDev5 envFeedDown "BTCUSDT" 110 = .ok () :=
  ⟨((C3_check_price_deviation cfgDev5 envHappy "BTCUSDT" 110).2.2 100 rfl
      (by norm_num) (by norm_num [cfgDev5])).mpr (by norm_num [cfgDev5]),
   (C3_check_price_deviation cfgDev5 envFeedDown "BTCUSDT" 110).2.1 rfl⟩

/-! ### C2 — guardrails run before signing and dispatch -/

/-- C2: in both `place_limit` and `place_oco` the notional/quantity
check decides first (its error is returned untouched, with an empty
outbound trace), then the deviation check (likewise), and any event —
signing included — can appear in the trace only when both checks have
passed, so an order failing either check is never signed or dispatched. -/
theorem C2_checks_gate_dispatch (cfg : GatewayConfig) (env : NetEnv)
    (order : LimitOrderIn) (oco : OCOOrderIn) :
    (∀ e, _enforce_limits cfg order.symbol order.side order.price order.qty = .error e →
      place_limit cfg env order = (.error e, [])) ∧
    (∀ e, _enforce_limits cfg order.symbol order.side order.price order.qty = .ok () →
      _enforce_price_deviation cfg env order.symbol order.price = .error e →
      place_limit cfg env order = (.error e, [])) ∧
    (∀ ev, ev ∈ (place_limit cfg env order).2 →
      _enforce_limits cfg order.symbol order.side order.price order.qty = .ok () ∧
      _enforce_price_deviation cfg env order.symbol order.price = .ok ()) ∧
    (∀ e, _enforce_limits cfg oco.symbol oco.side oco.price oco.quantity = .error e →
      place_oco cfg env oco = (.error e, [])) ∧
    (∀ e, _enforce_limits cfg oco.symbol oco.side oco.price oco.quantity = .ok () →
      _enforce_price_deviation cfg env oco.symbol oco.price = .error e →
      place_oco cfg env oco = (.error e, [])) ∧
    (∀ ev, ev ∈ (place_oco cfg env oco).2 →
      _enforce_limits cfg oco.symbol oco.side oco.price oco.quantity = .ok () ∧
      _enforce_price_deviation cfg env oco.symbol oco.price = .ok ()) := by
  refine ⟨?_, ?_, ?_, ?_, ?_, ?_⟩
  · intro e he
    simp [place_limit, he]
  · intro e hok he
    simp [place_limit, hok, he]
  · intro ev hev
    rcases hl : _enforce_limits cfg order.symbol order.side order.price order.qty with e | u
    · simp [place_limit, hl] at hev
    · cases u
      rcases hd : _enforce_price_deviation cfg env order.symbol order.price with e | v
      · simp [place_limit, hl, hd] at hev
      · cases v
        exact ⟨rfl, rfl⟩
  · intro e he
    simp [place_oco, he]
  · intro e hok he
    simp [place_oco, hok, he]
  · intro ev hev
    rcases hl : _enforce_limits cfg oco.symbol oco.side oco.price oco.quantity with e | u
    · simp [place_oco, hl] at hev
    · cases u
      rcases hd : _enforce_price_deviation cfg env oco.symbol oco.price with e | v
      · simp [place_oco, hl, hd] at hev
      · cases v
        exact ⟨rfl, rfl⟩

/-- C2 witness: with `max_notional = 10`, a limit order with notional 12
is answered by the notional error and an empty outbound trace. -/
theorem C2_checks_gate_dispatch_witness :
    place_limit cfgNotional10 envHappy ⟨"BTCUSDT", "BUY", 3, 4, "GTC", none⟩ =
      (.error ⟨400, .notionalExceeded 12 10⟩, []) :=
  (C2_checks_gate_dispatch cfgNotional10 envHappy ⟨"BTCUSDT", "BUY", 3, 4, "GTC", none⟩
      ⟨"BTCUSDT", "BUY", 1, 1, 1, 1, "GTC", none⟩).1
    ⟨400, .notionalExceeded 12 10⟩ (by norm_num [_enforce_limits, cfgNotional10])

/-! ### Dict-update and transport lemmas -/

/-- Assigning an absent key appends it. -/
theorem dictSet_of_not_mem (d : List (String × String)) (k v : String)
    (h : k ∉ d.map Prod.fst) : dictSet d k v = d ++ [(k, v)] := by
  unfold dictSet
  rw [if_neg]
  simpa using h

/-- A pair with a different key survives a dict assignment. -/
theorem mem_dictSet_of_mem (d : List (String × String)) (k v k0 v0 : String)
    (h : (k0, v0) ∈ d) (hk : k0 ≠ k) : (k0, v0) ∈ dictSet d k v := by
  unfold dictSet
  split_ifs with hc
  · rw [List.mem_map]
    exact ⟨(k0, v0), h, by simp [hk]⟩
  · simp [h]

/-- A key absent before a dict assignment of a different key is still
absent after it. -/
theorem not_mem_keys_dictSet (d : List (String × String)) (k v x : String)
    (hx : x ∉ d.map Prod.fst) (hk : x ≠ k) :
    x ∉ (dictSet d k v).map Prod.fst := by
  unfold dictSet
  split_ifs with hc
  · intro hmem
    rw [List.map_map, List.mem_map] at hmem
    obtain ⟨kv, hkv, heq⟩ := hmem
    by_cases h1 : kv.1 = k
    · simp [Function.comp, h1] at heq
      exact hk heq.symm
    · simp [Function.comp, h1] at heq
      exact hx (heq ▸ List.mem_map_of_mem Prod.fst hkv)
  · intro hmem
    rw [List.map_append, List.mem_append] at hmem
    rcases hmem with h1 | h1
    · exact hx h1
    · simp at h1
      exact hk h1

/-- Every parameter of the dispatched request whose key is none of the
three keys added by `_signed_request` was already in the input
parameters with the same value. -/
theorem signed_request_dispatch_mem (cfg : GatewayConfig) (env : NetEnv)
    (method path : String) (params : List (String × String)) (k0 v0 : String)
    (hmem : (k0, v0) ∈ params) (h1 : k0 ≠ "timestamp") (h2 : k0 ≠ "recvWindow")
    (h3 : k0 ≠ "signature") :
    ∀ ps ∈ dispatchedParamsOf (_signed_request cfg env method path params).2,
      (k0, v0) ∈ ps := by
  intro ps hps
  unfold _signed_request at hps
  split_ifs at hps with hcred hm
  · simp [dispatchedParamsOf] at hps
  · rcases henv : env.venue with b | e <;>
      rw [henv] at hps <;>
      simp only [dispatchedParamsOf, List.filterMap] at hps <;>
      simp at hps <;>
      subst hps <;>
      exact mem_dictSet_of_mem _ _ _ _ _
        (mem_dictSet_of_mem _ _ _ _ _
          (mem_dictSet_of_mem _ _ _ _ _ hmem h1) h2) h3
  · simp [dispatchedParamsOf] at hps

/-- A key absent from the input parameters and different from the three
added ones never reaches the dispatched request. -/
theorem signed_request_dispatch_not_key (cfg : GatewayConfig) (env : NetEnv)
    (method path : String) (params : List (String × String)) (x : String)
    (hx : x ∉ params.map Prod.fst) (h1 : x ≠ "timestamp") (h2 : x ≠ "recvWindow")
    (h3 : x ≠ "signature") :
    ∀ ps ∈ dispatchedParamsOf (_signed_request cfg env method path params).2,
      x ∉ ps.map Prod.fst := by
  intro ps hps
  unfold _signed_request at hps
  split_ifs at hps with hcred hm
  · simp [dispatchedParamsOf] at hps
  · rcases henv : env.venue with b | e <;>
      rw [henv] at hps <;>
      simp only [dispatchedParamsOf, List.filterMap] at hps <;>
      simp at hps <;>
      subst hps <;>
      exact not_mem_keys_dictSet _ _ _ _
        (not_mem_keys_dictSet _ _ _ _
          (not_mem_keys_dictSet _ _ _ _ hx h1) h2) h3
  · simp [dispatchedParamsOf] at hps

/-! ### C5 — what the signature covers -/

/-- C5: with credentials set and a supported method, a signed request
gains `timestamp = _timestamp_ms()` and `recvWindow = RECV_WINDOW_MS`,
and its `signature` is the hex HMAC-SHA256 digest, keyed by the API
secret, of the canonical query-string encoding of all parameters
including the two added ones; the signature itself is outside the
digested string and is appended last. -/
theorem C5_sign_canonical (cfg : GatewayConfig) (env : NetEnv)
    (method path : String) (params : List (String × String))
    (hk : cfg.BINANCE_API_KEY ≠ "") (hs : cfg.BINANCE_API_SECRET ≠ "")
    (hm : method = "GET" ∨ method = "POST" ∨ method = "DELETE")
    (ht : "timestamp" ∉ params.map Prod.fst)
    (hr : "recvWindow" ∉ params.map Prod.fst)
    (hg : "signature" ∉ params.map Prod.fst) :
    (_signed_request cfg env method path params).2 =
      [.signedEv
         (urlencode (params ++
           [("timestamp", toString (_timestamp_ms env)),
            ("recvWindow", toString cfg.RECV_WINDOW_MS)]))
         (hmacSha256Hex cfg.BINANCE_API_SECRET
           (urlencode (params ++
             [("timestamp", toString (_timestamp_ms env)),
              ("recvWindow", toString cfg.RECV_WINDOW_MS)]))),
       .dispatched method path
         (params ++
           [("timestamp", toString (_timestamp_ms env)),
            ("recvWindow", toString cfg.RECV_WINDOW_MS),
            ("signature",
              hmacSha256Hex cfg.BINANCE_API_SECRET
                (urlencode (params ++
                  [("timestamp", toString (_timestamp_ms env)),
                   ("recvWindow", toString cfg.RECV_WINDOW_MS)])))])] := by
  have ht2 := dictSet_of_not_mem params "timestamp" (toString (_timestamp_ms env)) ht
  have hr1 : "recvWindow" ∉
      (params ++ [("timestamp", toString (_timestamp_ms env))]).map Prod.fst := by
    simp [hr]
  have hr2 := dictSet_of_not_mem _ "recvWindow" (toString cfg.RECV_WINDOW_MS) hr1
  have hg1 : "signature" ∉
      (params ++ [("timestamp", toString (_timestamp_ms env)),
                  ("recvWindow", toString cfg.RECV_WINDOW_MS)]).map Prod.fst := by
    simp [hg]
  have hg2 : ∀ v, dictSet
      (params ++ [("timestamp", toString (_timestamp_ms env)),
                  ("recvWindow", toString cfg.RECV_WINDOW_MS)]) "signature" v =
      (params ++ [("timestamp", toString (_timestamp_ms env)),
                  ("recvWindow", toString cfg.RECV_WINDOW_MS)]) ++ [("signature", v)] :=
    fun v => dictSet_of_not_mem _ "signature" v hg1
  rcases hm with rfl | rfl | rfl <;> rcases henv : env.venue with e | b <;>
    simp [_signed_request, henv, hk, hs, ht2, hr2, hg2, _sign, List.append_assoc]

/-- C5 witness at a concrete order parameter set. -/
theorem C5_sign_canonical_witness :
    (_signed_request cfgNoLimits envHappy "POST" "/api/v3/order"
        [("symbol", "BTCUSDT")]).2 =
      [.signedEv
         (urlencode ([("symbol", "BTCUSDT")] ++
           [("timestamp", toString (_timestamp_ms envHappy)),
            ("recvWindow", toString cfgNoLimits.RECV_WINDOW_MS)]))
         (hmacSha256Hex cfgNoLimits.BINANCE_API_SECRET
           (urlencode ([("symbol", "BTCUSDT")] ++
             [("timestamp", toString (_timestamp_ms envHappy)),
              ("recvWindow", toString cfgNoLimits.RECV_WINDOW_MS)]))),
       .dispatched "POST" "/api/v3/order"
         ([("symbol", "BTCUSDT")] ++
           [("timestamp", toString (_timestamp_ms envHappy)),
            ("recvWindow", toString cfgNoLimits.RECV_WINDOW_MS),
            ("signature",
              hmacSha256Hex cfgNoLimits.BINANCE_API_SECRET
                (urlencode ([("symbol", "BTCUSDT")] ++
                  [("timestamp", toString (_timestamp_ms envHappy)),
                   ("recvWindow", toString cfgNoLimits.RECV_WINDOW_MS)])))])] :=
  C5_sign_canonical cfgNoLimits envHappy "POST" "/api/v3/order" [("symbol", "BTCUSDT")]
    (by decide) (by decide) (Or.inr (Or.inl rfl)) (by decide) (by decide) (by decide)

/-! ### C6 — missing credentials fail before signing -/

/-- C6: any signed call attempted with the API key or secret unset fails
with the ConfigurationError (a 500) and an empty outbound trace, so
nothing is signed and nothing is dispatched. -/
theorem C6_creds_required (cfg : GatewayConfig) (env : NetEnv)
    (method path : String) (params : List (String × String))
    (h : cfg.BINANCE_API_KEY = "" ∨ cfg.BINANCE_API_SECRET = "") :
    _signed_request cfg env method path params = (.error ⟨500, .credsNotSet⟩, []) := by
  unfold _signed_request
  rw [if_pos h]

/-- C6 witness: an unconfigured gateway refuses a signed POST. -/
theorem C6_creds_required_witness :
    _signed_request cfgNoCreds envHappy "POST" "/api/v3/order" [] =
      (.error ⟨500, .credsNotSet⟩, []) :=
  C6_creds_required cfgNoCreds envHappy "POST" "/api/v3/order" [] (Or.inl rfl)

/-! ### C7 — clock sync frame effect -/

/-- C7: a successful sync stores `remote_time_ms - local_time_ms(at the
call)`; on any fetch/parse failure the stored offset is unchanged (the
exception is swallowed, so nothing propagates); and the offset is 0
before the first successful sync. -/
theorem C7_sync_time (fetch : Option Int) (local_ms old_offset : Int) :
    (∀ server_time, fetch = some server_time →
      _sync_time fetch local_ms old_offset = server_time - local_ms) ∧
    (fetch = none → _sync_time fetch local_ms old_offset = old_offset) ∧
    time_offset_ms_init = 0 := by
  refine ⟨?_, ?_, rfl⟩
  · intro st h
    rw [h]
    rfl
  · intro h
    rw [h]
    rfl

/-- C7 witness: the spec's worked example, `remote = 1000000` at
`local = 999000` gives offset `1000`, and a failed sync keeps an old
offset of `42`. -/
theorem C7_sync_time_witness :
    _sync_time (some 1000000) 999000 0 = 1000000 - 999000 ∧
    _sync_time none 999000 42 = 42 :=
  ⟨(C7_sync_time (some 1000000) 999000 0).1 1000000 rfl,
   (C7_sync_time none 999000 42).2.1 rfl⟩

/-! ### C8 — signing is deterministic in its inputs -/

/-- C8: two runs of `_sign` with the same secret and the same parameter
mapping (timestamp included) produce the same signature, whatever else
differs between the two configurations. -/
theorem C8_sign_deterministic (cfg cfg' : GatewayConfig)
    (params params' : List (String × String))
    (hsec : cfg.BINANCE_API_SECRET = cfg'.BINANCE_API_SECRET)
    (hp : params = params') :
    _sign cfg params = _sign cfg' params' := by
  simp [_sign, hsec, hp]

/-- C8 witness: two configurations sharing only the secret sign the same
parameters identically. -/
theorem C8_sign_deterministic_witness :
    _sign cfgNotional10 [("symbol", "BTCUSDT"), ("timestamp", "1700000000250")] =
      _sign cfgDev5 [("symbol", "BTCUSDT"), ("timestamp", "1700000000250")] :=
  C8_sign_deterministic cfgNotional10 cfgDev5 _ _ rfl rfl

/-! ### C10 — gateway authentication fails closed -/

/-- C10: a request passes `require_agent_key` iff the configured gateway
secret is non-empty and the supplied `X-Agent-Key` header equals it
exactly; with the secret unset every request is rejected 401, whatever
header it sent. -/
theorem C10_agent_key (cfg : GatewayConfig) (x_agent_key : Option String) :
    (require_agent_key cfg x_agent_key = .ok true ↔
      cfg.AGENT_KEY ≠ "" ∧ x_agent_key = some cfg.AGENT_KEY) ∧
    (cfg.AGENT_KEY = "" →
      require_agent_key cfg x_agent_key = .error ⟨401, .unauthorized⟩) := by
  constructor
  · by_cases h : cfg.AGENT_KEY = "" ∨ x_agent_key ≠ some cfg.AGENT_KEY <;>
      simp [require_agent_key, h] <;> tauto
  · intro h
    unfold require_agent_key
    rw [if_pos (Or.inl h)]

/-- C10 witness: the exact header passes a configured gateway; an
unconfigured gateway rejects even a matching-looking header. -/
theorem C10_agent_key_witness :
    require_agent_key cfgNoLimits (some "agent-secret") = .ok true ∧
    require_agent_key ⟨"api-key", "api-secret", "", 5000, 0, 0, 0⟩ (some "") =
      .error ⟨401, .unauthorized⟩ :=
  ⟨(C10_agent_key cfgNoLimits (some "agent-secret")).1.mpr ⟨by decide, rfl⟩,
   (C10_agent_key ⟨"api-key", "api-secret", "", 5000, 0, 0, 0⟩ (some "")).2 rfl⟩

/-! ### C9 — falsy cancel identifiers are treated as absent -/

/-- When at least one identifier is truthy, `cancel_order` dispatches
the signed DELETE on the parameters built from the truthy identifiers
only. -/
theorem cancel_order_dispatch (cfg : GatewayConfig) (env : NetEnv)
    (body : CancelOrderIn)
    (h : ¬(¬ truthyOptInt body.orderId ∧ ¬ truthyOptStr body.clientOrderId)) :
    cancel_order cfg env body =
      _signed_request cfg env "DELETE" "/api/v3/order"
        (if truthyOptStr body.clientOrderId then
          dictSet
            (if truthyOptInt body.orderId then
              dictSet [("symbol", py_upper body.symbol)] "orderId"
                (toString (body.orderId.getD 0))
            else [("symbol", py_upper body.symbol)])
            "origClientOrderId" (body.clientOrderId.getD "")
        else
          (if truthyOptInt body.orderId then
            dictSet [("symbol", py_upper body.symbol)] "orderId"
              (toString (body.orderId.getD 0))
          else [("symbol", py_upper body.symbol)])) := by
  unfold cancel_order
  rw [if_neg h]

/-- When both identifiers are falsy, `cancel_order` rejects with the
missing-identifier 400 before any outbound action. -/
theorem cancel_order_reject (cfg : GatewayConfig) (env : NetEnv)
    (body : CancelOrderIn)
    (h : ¬ truthyOptInt body.orderId ∧ ¬ truthyOptStr body.clientOrderId) :
    cancel_order cfg env body = (.error ⟨400, .missingCancelId⟩, []) := by
  unfold cancel_order
  rw [if_pos h]

/-- C9: `cancel_order` treats falsy identifiers as absent: `orderId = 0`
with no client id, or `clientOrderId = ""` with no order id, is rejected
with the missing-identifier ValidationError and an empty trace; and a
falsy identifier never appears among the dispatched parameters. -/
theorem C9_falsy_cancel_ids (cfg : GatewayConfig) (env : NetEnv) (sym : String)
    (body : CancelOrderIn) :
    cancel_order cfg env ⟨sym, some 0, none⟩ =
      (.error ⟨400, .missingCancelId⟩, []) ∧
    cancel_order cfg env ⟨sym, none, some ""⟩ =
      (.error ⟨400, .missingCancelId⟩, []) ∧
    (truthyOptInt body.orderId = false →
      ∀ ps ∈ dispatchedParamsOf (cancel_order cfg env body).2,
        "orderId" ∉ ps.map Prod.fst) ∧
    (truthyOptStr body.clientOrderId = false →
      ∀ ps ∈ dispatchedParamsOf (cancel_order cfg env body).2,
        "origClientOrderId" ∉ ps.map Prod.fst) := by
  refine ⟨?_, ?_, ?_, ?_⟩
  · exact cancel_order_reject cfg env _ (by simp [truthyOptInt, truthyOptStr])
  · exact cancel_order_reject cfg env _ (by simp [truthyOptInt, truthyOptStr])
  · intro hfalsy ps hps
    by_cases hguard : ¬ truthyOptInt body.orderId ∧ ¬ truthyOptStr body.clientOrderId
    · rw [cancel_order_reject cfg env body hguard] at hps
      simp [dispatchedParamsOf] at hps
    · rw [cancel_order_dispatch cfg env body hguard] at hps
      refine signed_request_dispatch_not_key cfg env _ _ _ "orderId" ?_
        (by decide) (by decide) (by decide) ps hps
      by_cases hc : truthyOptStr body.clientOrderId <;>
        simp [hfalsy, hc, dictSet]
  · intro hfalsy ps hps
    by_cases hguard : ¬ truthyOptInt body.orderId ∧ ¬ truthyOptStr body.clientOrderId
    · rw [cancel_order_reject cfg env body hguard] at hps
      simp [dispatchedParamsOf] at hps
    · rw [cancel_order_dispatch cfg env body hguard] at hps
      refine signed_request_dispatch_not_key cfg env _ _ _ "origClientOrderId" ?_
        (by decide) (by decide) (by decide) ps hps
      by_cases ho : truthyOptInt body.orderId <;>
        simp [hfalsy, ho, dictSet]

set_option maxRecDepth 100000 in
/-- C9 witness: `orderId = 0` alone is rejected as missing, and the
dispatched request of an order-id-free cancel carries no `orderId`. -/
theorem C9_falsy_cancel_ids_witness :
    cancel_order cfgNoLimits envHappy ⟨"BTCUSDT", some 0, none⟩ =
      (.error ⟨400, .missingCancelId⟩, []) ∧
    "orderId" ∉ cancelDispatchA.map Prod.fst :=
  ⟨(C9_falsy_cancel_ids cfgNoLimits envHappy "BTCUSDT"
      ⟨"BTCUSDT", none, some "abc"⟩).1,
   (C9_falsy_cancel_ids cfgNoLimits envHappy "BTCUSDT"
      ⟨"BTCUSDT", none, some "abc"⟩).2.2.1 rfl cancelDispatchA (by decide)⟩

/-! ### C4 — cancel-order identifier precedence -/

set_option maxRecDepth 100000 in
/-- C4 counterexample: cancelling with `orderId = 5` AND
`clientOrderId = "abc"` dispatches a single request that carries BOTH
identifiers, so it is false that exactly one identifier is forwarded to
the venue. -/
theorem C4_counterexample :
    dispatchedParamsOf
        (cancel_order cfgNoLimits envHappy ⟨"btcusdt", some 5, some "abc"⟩).2 =
      [cancelDispatchB] ∧
    ("orderId", "5") ∈ cancelDispatchB ∧
    ("origClientOrderId", "abc") ∈ cancelDispatchB :=
  ⟨by decide, by decide, by decide⟩

/-- C4 (amended): with neither identifier supplied, `cancel_order`
fails with the ValidationError before any outbound action; with both
supplied it proceeds deterministically, dispatching exactly one signed
request that forwards both identifiers (`orderId` and
`origClientOrderId`). -/
theorem C4_cancel_order_amended (cfg : GatewayConfig) (env : NetEnv)
    (sym : String) (oid : Int) (cid : String)
    (hoid : oid ≠ 0) (hcid : cid ≠ "") :
    cancel_order cfg env ⟨sym, none, none⟩ =
      (.error ⟨400, .missingCancelId⟩, []) ∧
    (∀ ps ∈ dispatchedParamsOf (cancel_order cfg env ⟨sym, some oid, some cid⟩).2,
      ("orderId", toString oid) ∈ ps ∧ ("origClientOrderId", cid) ∈ ps) ∧
    (cfg.BINANCE_API_KEY ≠ "" → cfg.BINANCE_API_SECRET ≠ "" →
      (dispatchedParamsOf
        (cancel_order cfg env ⟨sym, some oid, some cid⟩).2).length = 1) := by
  have h1 : truthyOptInt (some oid) = true := by simp [truthyOptInt, hoid]
  have h2 : truthyOptStr (some cid) = true := by simp [truthyOptStr, hcid]
  have hbuild : cancel_order cfg env ⟨sym, some oid, some cid⟩ =
      _signed_request cfg env "DELETE" "/api/v3/order"
        ([("symbol", py_upper sym)] ++ [("orderId", toString oid)] ++
          [("origClientOrderId", cid)]) := by
    rw [cancel_order_dispatch cfg env _ (by simp [h1])]
    simp only [h1, h2, if_true, Option.getD_some]
    rw [dictSet_of_not_mem _ _ _ (by simp [dictSet])]
    rw [dictSet_of_not_mem _ _ _ (by simp)]
  refine ⟨?_, ?_, ?_⟩
  · exact cancel_order_reject cfg env _ (by simp [truthyOptInt, truthyOptStr])
  · intro ps hps
    rw [hbuild] at hps
    exact ⟨signed_request_dispatch_mem _ _ _ _ _ _ _ (by simp)
        (by decide) (by decide) (by decide) ps hps,
      signed_request_dispatch_mem _ _ _ _ _ _ _ (by simp)
        (by decide) (by decide) (by decide) ps hps⟩
  · intro hk hs
    rw [hbuild]
    unfold _signed_request
    rw [if_neg (by simp [hk, hs])]
    rcases henv : env.venue with e | b <;>
      simp [henv, dispatchedParamsOf]

set_option maxRecDepth 100000 in
/-- C4 amended witness: the rejected empty cancel and the dual-identifier
dispatch at a concrete request. -/
theorem C4_cancel_order_amended_witness :
    cancel_order cfgNoLimits envHappy ⟨"BTCUSDT", none, none⟩ =
      (.error ⟨400, .missingCancelId⟩, []) ∧
    (("orderId", toString (5 : Int)) ∈ cancelDispatchB ∧
      ("origClientOrderId", "abc") ∈ cancelDispatchB) :=
  ⟨(C4_cancel_order_amended cfgNoLimits envHappy "BTCUSDT" 5 "abc"
      (by decide) (by decide)).1,
   (C4_cancel_order_amended cfgNoLimits envHappy "btcusdt" 5 "abc"
      (by decide) (by decide)).2.1 cancelDispatchB (by decide)⟩
